import Mathlib

/-!
Shallow embedding of the `agentic` core engine (Rust) and verification of its
natural-language specification.

The embedding follows the source files:
  * `src/core/src/models/db.rs`      — data model (enums and row structs)
  * `src/core/src/matcher.rs`        — `find_match`
  * `src/core/src/processors.rs`     — `execute_step` and the CONDITIONAL_TIME logic
  * `src/core/src/flow_engine.rs`    — admission, scheduler, failed-execution audit rows

Modelling conventions:
  * database timestamps (`NaiveDateTime`, `NOW()`) are milliseconds as `Int`;
  * machine integers (`i32`, `i64`) are `Int`; Rust `/` on `i64` is `Int.tdiv`
    (truncation toward zero);
  * the database is a pure `DbState` record; a SQL `UPDATE ... WHERE id = $1`
    maps every row whose `id` matches; `ORDER BY "startedAt" DESC LIMIT 1`
    is the maximum of `startedAt` over the filtered rows;
  * Redis is modelled by the set of currently-held lock keys plus a
    `redis_ok : Bool` flag for whether the key-value command itself succeeds
    (the source wraps the SET NX reply in `unwrap_or(false)`);
  * the thread-local RNG sample of `gen_range(-variance..=variance)` is an
    explicit `sample : Int` parameter; theorems carry its range contract;
  * `tokio::spawn { sleep; execute_and_advance }` is represented by the
    `ScheduleResult.scheduled` outcome carrying the step and the computed
    delay: the state returned by `schedule_step` is the database state at the
    moment the deferred task starts sleeping.
-/

namespace Agentic

/-! ### Enums (models/db.rs) -/

inductive StepType where
  | TEXT
  | IMAGE
  | AUDIO
  | VIDEO
  | DOCUMENT
  | PTT
  | CONDITIONAL_TIME
deriving Repr, DecidableEq

inductive MatchType where
  | EXACT
  | CONTAINS
  | REGEX
deriving Repr, DecidableEq

inductive TriggerScope where
  | INCOMING
  | OUTGOING
  | BOTH
deriving Repr, DecidableEq

inductive Platform where
  | WHATSAPP
  | TELEGRAM
deriving Repr, DecidableEq

inductive SessionStatus where
  | CONNECTED
  | DISCONNECTED
  | AUTHENTICATING
  | FAILED
deriving Repr, DecidableEq

/-! ### Payload shapes (models/conditionals.rs, reconstructed from its uses in
processors.rs: `MediaPayload { url }`, `OutgoingPayload { text, image, audio,
caption, ptt }`, `OutgoingMessage { bot_id, target, execution_id, step_order,
payload }`, `ConditionalTimeMetadata { branches, fallback }` with branches
carrying `start_time`, `end_time`, `type`, `content`, `media_url`). -/

structure MediaPayload where
  url : String
deriving Repr, DecidableEq

structure OutgoingPayload where
  text : Option String
  image : Option MediaPayload
  audio : Option MediaPayload
  caption : Option String
  ptt : Option Bool
deriving Repr, DecidableEq

structure OutgoingMessage where
  bot_id : String
  target : String
  execution_id : String
  step_order : Int
  payload : OutgoingPayload
deriving Repr, DecidableEq

structure ConditionalBranch where
  start_time : String
  end_time : String
  type : String
  content : Option String
  media_url : Option String
deriving Repr, DecidableEq

structure ConditionalFallback where
  type : String
  content : Option String
  media_url : Option String
deriving Repr, DecidableEq

structure ConditionalTimeMetadata where
  branches : List ConditionalBranch
  fallback : Option ConditionalFallback
deriving Repr, DecidableEq

/-- A step's opaque JSON `metadata` column, abstracted by the outcome of
`serde_json::from_value::<ConditionalTimeMetadata>`: either it does not parse,
or it parses to a `ConditionalTimeMetadata`. -/
inductive StepMetadata where
  | unparseable
  | conditional (m : ConditionalTimeMetadata)
deriving Repr, DecidableEq

/-! ### Row structs (models/db.rs) -/

structure Step where
  id : String
  flow_id : String
  type : StepType
  content : Option String
  media_url : Option String
  metadata : Option StepMetadata
  delay_ms : Int
  jitter_pct : Int
  order : Int
  created_at : Int
  updated_at : Int
deriving Repr, DecidableEq

structure Execution where
  id : String
  session_id : String
  flow_id : String
  platform_user_id : String
  status : String
  current_step : Int
  variable_context : Option String
  started_at : Int
  updated_at : Int
  completed_at : Option Int
  error : Option String
  trigger : Option String
deriving Repr, DecidableEq

structure Session where
  id : String
  platform : Platform
  identifier : String
  bot_id : String
  name : Option String
  status : SessionStatus
  auth_data : Option String
  created_at : Int
  updated_at : Int
deriving Repr, DecidableEq

structure Trigger where
  id : String
  bot_id : String
  session_id : Option String
  keyword : String
  match_type : MatchType
  is_active : Bool
  flow_id : String
  created_at : Int
  updated_at : Int
  scope : TriggerScope
  cooldown_ms : Option Int
  usage_limit : Option Int
  excludes_flows : Option (List String)
deriving Repr, DecidableEq

/-! ### Matcher (matcher.rs) -/

/-- Rust `String::contains(&sub)`: `sub` occurs as a contiguous substring. -/
def str_contains (s sub : String) : Bool :=
  decide (List.IsInfix sub.data s.data)

/-- Rust `str::trim`: strip leading and trailing whitespace characters.
(Defined over the character list so it evaluates inside the kernel; Lean's
own `String.trim` agrees on these inputs but does not reduce.) -/
def rust_trim (s : String) : String :=
  ⟨((s.data.dropWhile Char.isWhitespace).reverse.dropWhile Char.isWhitespace).reverse⟩

/-- Rust `String::to_lowercase`, as the per-character lowering (the keywords
and message text exercised here are ASCII, where the two coincide). -/
def rust_to_lowercase (s : String) : String :=
  ⟨s.data.map Char.toLower⟩

/-- First pass of `find_match`: the `for` loop returning the first trigger
whose `matchType` is EXACT and whose lower-cased keyword equals the
normalized content. -/
def exact_pass (normalized : String) : List Trigger → Option Trigger
  | [] => none
  | t :: ts =>
    if t.match_type = MatchType.EXACT && rust_to_lowercase t.keyword = normalized then some t
    else exact_pass normalized ts

/-- Second pass of `find_match`: the first trigger whose `matchType` is
CONTAINS and whose lower-cased keyword is a substring of the normalized
content. -/
def contains_pass (normalized : String) : List Trigger → Option Trigger
  | [] => none
  | t :: ts =>
    if t.match_type = MatchType.CONTAINS && str_contains normalized (rust_to_lowercase t.keyword) then some t
    else contains_pass normalized ts

/-- `matcher::find_match`. The Rust function returns `MatchResult { trigger }`;
we return the trigger itself. -/
def find_match (content : String) (triggers : List Trigger) : Option Trigger :=
  let normalized := rust_to_lowercase (rust_trim content)
  if normalized.data.isEmpty then none
  else
    match exact_pass normalized triggers with
    | some t => some t
    | none => contains_pass normalized triggers

/-! ### Processor (processors.rs) -/

/-- Rust `str::parse::<u32>` on the strings appearing in `"HH:MM"` fields:
at least one character, all digits. (Rust would additionally allow a leading
`'+'` and reject values above `u32::MAX`; time-of-day fields exercise
neither.) -/
def parse_u32 (s : String) : Option Nat :=
  if !s.data.isEmpty && s.data.all Char.isDigit then
    some (s.data.foldl (fun n c => n * 10 + (c.toNat - 48)) 0)
  else none

/-- The `to_minutes` closure inside `execute_step`: split on `':'`, require
exactly two parts, parse both as `u32`, return `h * 60 + m`. -/
def to_minutes (time_str : String) : Option Nat :=
  match (time_str.data.splitOn ':').map (fun l => String.mk l) with
  | [h, m] =>
    match parse_u32 h, parse_u32 m with
    | some hh, some mm => some (hh * 60 + mm)
    | _, _ => none
  | _ => none

/-- Whether a CONDITIONAL_TIME branch matches `current_minutes`; a branch
whose `startTime`/`endTime` do not parse is skipped by the loop, i.e. never
matches. `start < end` is an ordinary window, `start ≥ end` crosses
midnight. -/
def branch_is_match (current_minutes : Nat) (b : ConditionalBranch) : Bool :=
  match to_minutes b.start_time, to_minutes b.end_time with
  | some s, some e =>
    if s < e then decide (s ≤ current_minutes) && decide (current_minutes < e)
    else decide (current_minutes ≥ s) || decide (current_minutes < e)
  | _, _ => false

/-- Projection of a matched branch's (or the fallback's) `type`/`content`/
`mediaUrl` into the outgoing payload; the `match branch.type.as_str()` arms of
the source. AUDIO inside a conditional always sets `ptt := true`; unknown
types leave the payload untouched, as does media content without a URL. -/
def apply_branch_content (p : OutgoingPayload) (ty : String)
    (content : Option String) (media_url : Option String) : OutgoingPayload :=
  match ty with
  | "TEXT" => { p with text := content }
  | "IMAGE" =>
    match media_url with
    | some url => { p with image := some ⟨url⟩, caption := content }
    | none => p
  | "AUDIO" =>
    match media_url with
    | some url => { p with audio := some ⟨url⟩, ptt := some true }
    | none => p
  | _ => p

/-- The `for branch in &metadata.branches` loop: returns `some` of the updated
payload at the first matching branch (then `break`), `none` if no branch
matched (`match_found` stayed false). -/
def run_branches (p : OutgoingPayload) (current_minutes : Nat) :
    List ConditionalBranch → Option OutgoingPayload
  | [] => none
  | b :: bs =>
    if branch_is_match current_minutes b then
      some (apply_branch_content p b.type b.content b.media_url)
    else run_branches p current_minutes bs

/-- The whole CONDITIONAL_TIME arm given parsed metadata: first matching
branch wins; otherwise the fallback, if present, is projected. -/
def conditional_time_payload (p : OutgoingPayload) (m : ConditionalTimeMetadata)
    (current_minutes : Nat) : OutgoingPayload :=
  match run_branches p current_minutes m.branches with
  | some p' => p'
  | none =>
    match m.fallback with
    | some fb => apply_branch_content p fb.type fb.content fb.media_url
    | none => p

/-- The empty payload `execute_step` starts from. -/
def empty_payload : OutgoingPayload :=
  { text := none, image := none, audio := none, caption := none, ptt := none }

/-- The `match step.r#type` arms of `execute_step` on the WHATSAPP path:
builds the outgoing payload from the step row and the current time-of-day in
minutes (`America/Mexico_City`). Media steps without `mediaUrl` log and leave
the payload empty; VIDEO/DOCUMENT are unsupported; CONDITIONAL_TIME with
missing or unparseable metadata leaves the payload empty. -/
def build_whatsapp_payload (step : Step) (current_minutes : Nat) : OutgoingPayload :=
  match step.type with
  | StepType.TEXT => { empty_payload with text := step.content }
  | StepType.IMAGE =>
    match step.media_url with
    | some url => { empty_payload with image := some ⟨url⟩, caption := step.content }
    | none => empty_payload
  | StepType.AUDIO =>
    match step.media_url with
    | some url => { empty_payload with audio := some ⟨url⟩, ptt := some false }
    | none => empty_payload
  | StepType.PTT =>
    match step.media_url with
    | some url => { empty_payload with audio := some ⟨url⟩, ptt := some true }
    | none => empty_payload
  | StepType.CONDITIONAL_TIME =>
    match step.metadata with
    | some (StepMetadata.conditional m) => conditional_time_payload empty_payload m current_minutes
    | _ => empty_payload
  | _ => empty_payload

/-- Whether `execute_step` emits: `text.is_some() || image.is_some() ||
audio.is_some()`. -/
def payload_nonempty (p : OutgoingPayload) : Bool :=
  p.text.isSome || p.image.isSome || p.audio.isSome

/-- `processors::execute_step`. The three sqlx queries are passed as oracles
(`Except` reflects a database error, the inner `Option` a missing row);
`xadd_ok` is whether the XADD to `agentic:queue:outgoing` succeeds. The
result is the list of records that landed on the outbound stream; a database
error propagates as `Except.error` (via `?` / `.context` in the source),
every other situation — missing row, non-WhatsApp platform, empty payload,
XADD failure — merely logs and returns `Ok`. -/
def execute_step (q_step : Except String (Option Step))
    (q_execution : Except String (Option Execution))
    (q_session : Except String (Option Session))
    (execution_id : String) (step_order : Int) (current_minutes : Nat)
    (xadd_ok : Bool) : Except String (List OutgoingMessage) :=
  match q_step with
  | Except.error e => Except.error ("Failed to query Step: " ++ e)
  | Except.ok none => Except.ok []
  | Except.ok (some step) =>
    match q_execution with
    | Except.error e => Except.error ("Failed to query Execution: " ++ e)
    | Except.ok none => Except.ok []
    | Except.ok (some _execution) =>
      match q_session with
      | Except.error e => Except.error ("Failed to query Session: " ++ e)
      | Except.ok none => Except.ok []
      | Except.ok (some session) =>
        if session.platform = Platform.WHATSAPP then
          let payload := build_whatsapp_payload step current_minutes
          if payload_nonempty payload then
            if xadd_ok then
              Except.ok [{ bot_id := session.bot_id, target := session.identifier,
                           execution_id := execution_id, step_order := step_order,
                           payload := payload }]
            else Except.ok []
          else Except.ok []
        else Except.ok []

/-! ### Flow engine (flow_engine.rs) -/

/-- The database plus the Redis lock keyspace. `triggers` models the
`"Trigger" JOIN "Flow"` table contents (the join populates `cooldown_ms`,
`usage_limit`, `excludes_flows` on each trigger row); `locks` is the set of
currently-present `flow:lock:...` keys. -/
structure DbState where
  triggers : List Trigger
  executions : List Execution
  steps : List Step
  sessions : List Session
  locks : List String
deriving Repr, DecidableEq

/-- The `t.scope = ANY($1)` filter with `valid_scopes` chosen from
`from_me`. -/
def scope_allowed (scope : TriggerScope) (from_me : Bool) : Bool :=
  if from_me then scope = TriggerScope.OUTGOING || scope = TriggerScope.BOTH
  else scope = TriggerScope.INCOMING || scope = TriggerScope.BOTH

/-- The trigger query of `process_incoming_message`: active triggers of
matching scope, scoped to this session or session-unscoped on this bot. -/
def active_triggers (triggers : List Trigger) (bot_id session_id : String)
    (from_me : Bool) : List Trigger :=
  triggers.filter fun t =>
    t.is_active && scope_allowed t.scope from_me &&
      (t.session_id = some session_id || (t.bot_id = bot_id && t.session_id = none))

/-- Redis `SET key "1" NX EX 30` wrapped in `unwrap_or(false)`: acquisition
succeeds iff the command itself succeeds (`redis_ok`) and the key is absent. -/
def set_nx (locks : List String) (key : String) (redis_ok : Bool) : Bool :=
  redis_ok && !(locks.contains key)

/-- `ORDER BY "startedAt" DESC LIMIT 1` over the executions of
`(session, flow)`: the latest `startedAt`, if any row exists. -/
def last_started_at (executions : List Execution) (session_id flow_id : String) :
    Option Int :=
  ((executions.filter fun e => e.session_id = session_id && e.flow_id = flow_id).map
    (·.started_at)).max?

/-- `COUNT(*)` over the executions of `(session, flow)`. -/
def execution_count (executions : List Execution) (session_id flow_id : String) : Nat :=
  (executions.filter fun e => e.session_id = session_id && e.flow_id = flow_id).length

/-- `COUNT(*)` over executions of this session whose flow is in
`excludesFlows` (`"flowId" = ANY($2)`). -/
def conflict_count (executions : List Execution) (session_id : String)
    (excludes : List String) : Nat :=
  (executions.filter fun e => e.session_id = session_id && excludes.contains e.flow_id).length

/-- The row inserted by `create_failed_execution`: status FAILED,
`currentStep` 0, `completedAt` set, `error` the rejection reason, `trigger`
the keyword. -/
def failed_execution (id session_id flow_id sender keyword error_msg : String)
    (now : Int) : Execution :=
  { id := id, session_id := session_id, flow_id := flow_id,
    platform_user_id := sender, status := "FAILED", current_step := 0,
    variable_context := some "{}", started_at := now, updated_at := now,
    completed_at := some now, error := some error_msg, trigger := some keyword }

/-- The row inserted on successful admission: status RUNNING, `currentStep`
0, empty variable context, no error, no completion. -/
def running_execution (id session_id flow_id sender keyword : String)
    (now : Int) : Execution :=
  { id := id, session_id := session_id, flow_id := flow_id,
    platform_user_id := sender, status := "RUNNING", current_step := 0,
    variable_context := some "{}", started_at := now, updated_at := now,
    completed_at := none, error := none, trigger := some keyword }

/-- Outcome of one `process_incoming_message` call (the function itself
returns `Ok(())` on all of these paths; database errors are not modelled). -/
inductive AdmissionOutcome where
  | emptyContent
  | noMatch
  | lockDenied
  | rejected (reason : String)
  | admitted (execution_id : String)
deriving Repr, DecidableEq

/-- `flow_engine::process_incoming_message` after decoding: empty-content
early return, trigger query, matcher, SET-NX lock, the three admission checks
inside the transaction (rolled back on rejection, so a rejection adds only
the audit row written afterwards by `create_failed_execution`), RUNNING
insert on success, and the unconditional DEL of the lock key on every path
past acquisition. `redis_ok` is whether the SET command itself succeeds;
`now` the wall clock in ms; `new_id` the fresh UUID. Scheduling of step 0 is
the caller's next move on `admitted` and is modelled by `schedule_step`. -/
def process_incoming_message (st : DbState) (bot_id session_id : String)
    (from_me : Bool) (sender content : String) (redis_ok : Bool) (now : Int)
    (new_id : String) : DbState × AdmissionOutcome :=
  if (rust_trim content).data.isEmpty then (st, AdmissionOutcome.emptyContent)
  else
    -- the `triggers.is_empty()` early return coincides with the matcher
    -- returning none on an empty candidate list
    match find_match content (active_triggers st.triggers bot_id session_id from_me) with
    | none => (st, AdmissionOutcome.noMatch)
    | some trigger =>
      let lock_key := "flow:lock:" ++ session_id ++ ":" ++ trigger.flow_id
      if set_nx st.locks lock_key redis_ok then
        let locks1 := lock_key :: st.locks
        let cooldown_ms := trigger.cooldown_ms.getD 0
        let usage_limit := trigger.usage_limit.getD 0
        let excludes_flows := trigger.excludes_flows.getD []
        let reject := fun (msg : String) =>
          ({ st with
              executions := st.executions ++
                [failed_execution new_id session_id trigger.flow_id sender
                  trigger.keyword msg now],
              locks := locks1.erase lock_key },
            AdmissionOutcome.rejected msg)
        -- the checks fall through to each other; each is a `let` continuation
        let create :=
          ({ st with
              executions := st.executions ++
                [running_execution new_id session_id trigger.flow_id sender
                  trigger.keyword now],
              locks := locks1.erase lock_key },
            AdmissionOutcome.admitted new_id)
        let exclusion_check :=
          if !excludes_flows.isEmpty &&
              conflict_count st.executions session_id excludes_flows > 0 then
            reject "Mutually exclusive flow already executed"
          else create
        let usage_check :=
          let count : Int := execution_count st.executions session_id trigger.flow_id
          if usage_limit > 0 && count ≥ usage_limit then
            reject ("Usage limit reached (" ++ toString count ++ "/" ++ toString usage_limit ++ ")")
          else exclusion_check
        if cooldown_ms > 0 then
          match last_started_at st.executions session_id trigger.flow_id with
          | some started_at =>
            let elapsed := now - started_at
            if elapsed < cooldown_ms then
              reject ("Cooldown active (" ++ toString elapsed ++ "/" ++ toString cooldown_ms ++ "ms)")
            else usage_check
          | none => usage_check
        else usage_check
      else (st, AdmissionOutcome.lockDenied)

/-- `UPDATE "Execution" ... WHERE id = $1`: apply `f` to every row whose id
matches. -/
def update_execution (executions : List Execution) (id : String)
    (f : Execution → Execution) : List Execution :=
  executions.map fun e => if e.id = id then f e else e

/-- `SELECT * FROM "Execution" WHERE id = $1` with `fetch_optional`. -/
def find_execution (executions : List Execution) (id : String) : Option Execution :=
  executions.find? fun e => e.id = id

/-- `SELECT * FROM "Step" WHERE "flowId" = $1 ORDER BY "order" ASC`; the
ordering is irrelevant to the scheduler, which only looks a step up by its
exact `order` value. -/
def steps_of (steps : List Step) (flow_id : String) : List Step :=
  steps.filter fun s => s.flow_id = flow_id

/-- `variance = (base * jitter_pct) / 100` on `i64`; Rust `/` truncates
toward zero. -/
def jitter_variance (delay_ms jitter_pct : Int) : Int :=
  Int.tdiv (delay_ms * jitter_pct) 100

/-- `jitter = if variance > 0 { gen_range(-variance..=variance) } else { 0 }`;
the RNG draw is the explicit `sample`. -/
def jitter_of (delay_ms jitter_pct sample : Int) : Int :=
  if jitter_variance delay_ms jitter_pct > 0 then sample else 0

/-- `final_delay = max(0, base + jitter)`. -/
def final_delay (delay_ms jitter_pct sample : Int) : Int :=
  max 0 (delay_ms + jitter_of delay_ms jitter_pct sample)

/-- What one `schedule_step` call did. `scheduled step delay` stands for the
spawned deferred task `sleep(delay); execute_and_advance(step)` — the only
outcome that dispatches anything. -/
inductive ScheduleResult where
  | executionNotFound
  | notRunning
  | flowFinished
  | scheduled (step : Step) (delay : Int)
deriving Repr, DecidableEq

/-- `flow_engine::schedule_step`: fetch the execution (drop if missing), drop
if not RUNNING, look the step up by `order` (COMPLETED transition if absent),
compute the jittered delay and spawn the deferred task. Database errors are
not modelled (they also just drop the hop). The returned state is the
database at the moment the deferred task starts sleeping. -/
def schedule_step (st : DbState) (execution_id : String) (step_order : Int)
    (now sample : Int) : DbState × ScheduleResult :=
  match find_execution st.executions execution_id with
  | none => (st, ScheduleResult.executionNotFound)
  | some execution =>
    if execution.status ≠ "RUNNING" then (st, ScheduleResult.notRunning)
    else
      match (steps_of st.steps execution.flow_id).find? (fun s => s.order = step_order) with
      | none =>
        ({ st with
            executions := update_execution st.executions execution_id fun e =>
              { e with status := "COMPLETED", completed_at := some now, updated_at := now } },
          ScheduleResult.flowFinished)
      | some step =>
        (st, ScheduleResult.scheduled step (final_delay step.delay_ms step.jitter_pct sample))

/-- `flow_engine::execute_and_advance`, the body of the deferred task after
its sleep: set `currentStep := step.order` and `updatedAt := now`, run the
processor (its result is the `processor_result` parameter; on `Err` record
`"Step {order} error: {msg}"` on the execution and continue), then re-enter
`schedule_step` for `order + 1`. -/
def execute_and_advance (st : DbState) (execution_id : String) (step : Step)
    (processor_result : Except String Unit) (now sample : Int) :
    DbState × ScheduleResult :=
  let st1 := { st with
    executions := update_execution st.executions execution_id fun e =>
      { e with current_step := step.order, updated_at := now } }
  let st2 :=
    match processor_result with
    | Except.ok _ => st1
    | Except.error msg =>
      { st1 with
        executions := update_execution st1.executions execution_id fun e =>
          { e with error := some ("Step " ++ toString step.order ++ " error: " ++ msg),
                   updated_at := now } }
  schedule_step st2 execution_id (step.order + 1) now sample

/-! ### Theorems: matcher -/

/-- The predicate of the first matcher pass, as a single boolean. -/
def is_exact_match (normalized : String) (t : Trigger) : Bool :=
  t.match_type = MatchType.EXACT && rust_to_lowercase t.keyword = normalized

/-- The predicate of the second matcher pass, as a single boolean. -/
def is_contains_match (normalized : String) (t : Trigger) : Bool :=
  t.match_type = MatchType.CONTAINS && str_contains normalized (rust_to_lowercase t.keyword)

theorem exact_pass_eq_find (n : String) (ts : List Trigger) :
    exact_pass n ts = ts.find? (is_exact_match n) := by
  induction ts with
  | nil => rfl
  | cons t ts ih =>
    simp only [exact_pass, List.find?_cons, is_exact_match]
    cases h : (decide (t.match_type = MatchType.EXACT) && decide (rust_to_lowercase t.keyword = n)) <;>
      simp [h, ih, is_exact_match]

theorem contains_pass_eq_find (n : String) (ts : List Trigger) :
    contains_pass n ts = ts.find? (is_contains_match n) := by
  induction ts with
  | nil => rfl
  | cons t ts ih =>
    simp only [contains_pass, List.find?_cons, is_contains_match]
    cases h : (decide (t.match_type = MatchType.CONTAINS) && str_contains n (rust_to_lowercase t.keyword)) <;>
      simp [h, ih, is_contains_match]

/-- **C7.** The matcher normalizes by trimming and lower-casing; empty
normalized content yields no match; otherwise the result is the first
EXACT-matching trigger and, only when there is none, the first
CONTAINS-matching trigger; a REGEX trigger is never returned. -/
theorem find_match_priority (content : String) (triggers : List Trigger) :
    ((rust_to_lowercase (rust_trim content)).data.isEmpty = true → find_match content triggers = none) ∧
    ((rust_to_lowercase (rust_trim content)).data.isEmpty = false →
      find_match content triggers =
        (triggers.find? (is_exact_match (rust_to_lowercase (rust_trim content)))).or
          (triggers.find? (is_contains_match (rust_to_lowercase (rust_trim content))))) ∧
    (∀ t, find_match content triggers = some t → t.match_type ≠ MatchType.REGEX) := by
  refine ⟨?_, ?_, ?_⟩
  · intro h
    simp [find_match, h]
  · intro h
    simp only [find_match, h, Bool.false_eq_true, if_false]
    rw [exact_pass_eq_find, contains_pass_eq_find]
    cases hf : triggers.find? (is_exact_match (rust_to_lowercase (rust_trim content))) <;> simp [Option.or]
  · intro t ht
    simp only [find_match] at ht
    by_cases h : (rust_to_lowercase (rust_trim content)).data.isEmpty
    · simp [h] at ht
    · simp only [h, if_false, Bool.false_eq_true] at ht
      rcases he : exact_pass (rust_to_lowercase (rust_trim content)) triggers with _ | t'
      · rw [he] at ht
        rw [contains_pass_eq_find] at ht
        have := List.find?_some ht
        simp only [is_contains_match, Bool.and_eq_true, decide_eq_true_eq] at this
        intro hr; rw [hr] at this; exact absurd this.1 (by simp)
      · rw [he] at ht
        rw [exact_pass_eq_find] at he
        have := List.find?_some he
        simp only [is_exact_match, Bool.and_eq_true, decide_eq_true_eq] at this
        cases ht
        intro hr; rw [hr] at this; exact absurd this.1 (by simp)

/-! Concrete fixtures used by the witnesses. -/

/-- An active EXACT trigger on keyword `"Hello"` for flow `f1` of bot `b`,
with a 60 s flow cooldown joined in. -/
def trigger_exact : Trigger :=
  { id := "t1", bot_id := "b", session_id := none, keyword := "Hello",
    match_type := MatchType.EXACT, is_active := true, flow_id := "f1",
    created_at := 0, updated_at := 0, scope := TriggerScope.INCOMING,
    cooldown_ms := some 60000, usage_limit := none, excludes_flows := none }

/-- The same keyword as a CONTAINS trigger. -/
def trigger_contains : Trigger :=
  { trigger_exact with id := "t2", match_type := MatchType.CONTAINS }

/-- Witness for C7: `"  HELLO "` resolves to the EXACT trigger even though a
CONTAINS trigger on the same keyword is listed first, and whitespace-only
content matches nothing. -/
theorem find_match_priority_witness :
    find_match "  HELLO " [trigger_contains, trigger_exact] = some trigger_exact ∧
    find_match "   " [trigger_exact] = none := by
  constructor
  · have h := (find_match_priority "  HELLO " [trigger_contains, trigger_exact]).2.1 (by decide)
    rw [h]; decide
  · exact (find_match_priority "   " [trigger_exact]).1 (by decide)

/-! ### Theorems: conditional-time processor -/

theorem run_branches_eq_find (p : OutgoingPayload) (now : Nat)
    (bs : List ConditionalBranch) :
    run_branches p now bs =
      (bs.find? (branch_is_match now)).map
        (fun b => apply_branch_content p b.type b.content b.media_url) := by
  induction bs with
  | nil => rfl
  | cons b bs ih =>
    simp only [run_branches, List.find?_cons]
    cases h : branch_is_match now b <;> simp [h, ih]

/-- **C2.** On a CONDITIONAL_TIME step whose metadata parses, the processor
projects the first branch (in list order) whose time window matches the
current time-of-day in minutes — where `start < end` matches when
`start ≤ now < end` and `start ≥ end` (midnight-crossing) matches when
`now ≥ start` or `now < end` — and, if no branch matches and a fallback is
present, projects the fallback instead. -/
theorem conditional_time_first_branch (step : Step) (m : ConditionalTimeMetadata)
    (current_minutes : Nat)
    (hty : step.type = StepType.CONDITIONAL_TIME)
    (hmeta : step.metadata = some (StepMetadata.conditional m)) :
    (∀ b, m.branches.find? (branch_is_match current_minutes) = some b →
      build_whatsapp_payload step current_minutes =
        apply_branch_content empty_payload b.type b.content b.media_url) ∧
    (m.branches.find? (branch_is_match current_minutes) = none →
      build_whatsapp_payload step current_minutes =
        (match m.fallback with
         | some fb => apply_branch_content empty_payload fb.type fb.content fb.media_url
         | none => empty_payload)) ∧
    (∀ b s e, to_minutes b.start_time = some s → to_minutes b.end_time = some e →
      (branch_is_match current_minutes b = true ↔
        (if s < e then s ≤ current_minutes ∧ current_minutes < e
         else current_minutes ≥ s ∨ current_minutes < e))) := by
  refine ⟨?_, ?_, ?_⟩
  · intro b hb
    simp only [build_whatsapp_payload, hty, hmeta, conditional_time_payload,
      run_branches_eq_find, hb, Option.map]
  · intro hnone
    simp only [build_whatsapp_payload, hty, hmeta, conditional_time_payload,
      run_branches_eq_find, hnone, Option.map]
  · intro b s e hs he
    simp only [branch_is_match, hs, he]
    by_cases h : s < e <;> simp [h]

/-- A CONDITIONAL_TIME step whose single branch is the night window
`22:00–06:00` with TEXT `"night"`, and whose fallback is TEXT `"day"`. -/
def step_conditional : Step :=
  { id := "sC", flow_id := "f1", type := StepType.CONDITIONAL_TIME,
    content := none, media_url := none,
    metadata := some (StepMetadata.conditional
      { branches := [{ start_time := "22:00", end_time := "06:00", type := "TEXT",
                       content := some "night", media_url := none }],
        fallback := some { type := "TEXT", content := some "day", media_url := none } }),
    delay_ms := 0, jitter_pct := 0, order := 0, created_at := 0, updated_at := 0 }

/-- Witness for C2: at 23:30 the midnight-crossing branch fires
(`text = "night"`); at 14:00 nothing matches and the fallback fires
(`text = "day"`). -/
theorem conditional_time_first_branch_witness :
    build_whatsapp_payload step_conditional (23 * 60 + 30) =
      { empty_payload with text := some "night" } ∧
    build_whatsapp_payload step_conditional (14 * 60) =
      { empty_payload with text := some "day" } := by
  constructor
  · rw [(conditional_time_first_branch step_conditional _ (23 * 60 + 30) rfl rfl).1
      { start_time := "22:00", end_time := "06:00", type := "TEXT",
        content := some "night", media_url := none } (by decide)]
    decide
  · rw [(conditional_time_first_branch step_conditional _ (14 * 60) rfl rfl).2.1 (by decide)]
    decide

/-! ### Theorems: scheduler -/

theorem mem_update_execution {l : List Execution} {id : String}
    {f : Execution → Execution} {e' : Execution}
    (h : e' ∈ update_execution l id f) :
    (∃ a, a ∈ l ∧ a.id = id ∧ e' = f a) ∨ (e' ∈ l ∧ ¬ e'.id = id) := by
  simp only [update_execution, List.mem_map] at h
  obtain ⟨a, ha, heq⟩ := h
  by_cases hid : a.id = id
  · exact Or.inl ⟨a, ha, hid, by rw [← heq, if_pos hid]⟩
  · right
    rw [← heq, if_neg hid]
    exact ⟨ha, hid⟩

/-- A `schedule_step` call either leaves the execution table untouched or
applies the COMPLETED transition to the target execution. -/
theorem schedule_step_executions (st : DbState) (eid : String) (k now sample : Int) :
    (schedule_step st eid k now sample).1.executions = st.executions ∨
    (schedule_step st eid k now sample).1.executions =
      update_execution st.executions eid (fun e =>
        { e with status := "COMPLETED", completed_at := some now, updated_at := now }) := by
  unfold schedule_step
  split
  · exact Or.inl rfl
  · split
    · exact Or.inl rfl
    · split
      · exact Or.inr rfl
      · exact Or.inl rfl

/-- A dispatched step always carries exactly the requested `order`. -/
theorem schedule_step_scheduled_order (st : DbState) (eid : String)
    (k now sample : Int) (s : Step) (d : Int)
    (h : (schedule_step st eid k now sample).2 = ScheduleResult.scheduled s d) :
    s.order = k := by
  unfold schedule_step at h
  revert h
  split
  · intro h; exact absurd h (by simp)
  · split
    · intro h; exact absurd h (by simp)
    · split
      · intro h; exact absurd h (by simp)
      · rename_i step' hfind
        intro h
        simp only [ScheduleResult.scheduled.injEq] at h
        have hp := List.find?_some hfind
        rw [decide_eq_true_eq] at hp
        rw [← h.1, hp]

theorem update_execution_sets (l : List Execution) (eid : String)
    (f : Execution → Execution) (v : Int) (hf : ∀ a, (f a).current_step = v) :
    ∀ e' ∈ update_execution l eid f, e'.id = eid → e'.current_step = v := by
  intro e' hmem hid
  rcases mem_update_execution hmem with ⟨a, _, _, rfl⟩ | ⟨_, hnid⟩
  · exact hf a
  · exact absurd hid hnid

theorem update_execution_keeps (l : List Execution) (eid : String)
    (f : Execution → Execution) (v : Int)
    (hf : ∀ a, (f a).current_step = a.current_step)
    (hQ : ∀ e' ∈ l, e'.id = eid → e'.current_step = v) :
    ∀ e' ∈ update_execution l eid f, e'.id = eid → e'.current_step = v := by
  intro e' hmem hid
  rcases mem_update_execution hmem with ⟨a, ha, haid, rfl⟩ | ⟨_, hnid⟩
  · rw [hf a]; exact hQ a ha haid
  · exact absurd hid hnid

theorem schedule_step_preserves_current_step (st : DbState) (eid : String)
    (k now sample : Int) (v : Int)
    (hv : ∀ e' ∈ st.executions, e'.id = eid → e'.current_step = v) :
    ∀ e' ∈ (schedule_step st eid k now sample).1.executions,
      e'.id = eid → e'.current_step = v := by
  rcases schedule_step_executions st eid k now sample with h | h
  · rw [h]; exact hv
  · rw [h]
    exact update_execution_keeps _ _ _ _ (fun a => rfl) hv

/-- **C3.** When the scheduler dispatches step `order` of a RUNNING
execution, the delay it sleeps before firing the processor is
`max(0, delayMs + j)` for some `j ∈ [−variance, +variance]` with
`variance = delayMs * jitterPct / 100` in integer arithmetic, and `j = 0`
whenever the variance is `0`. -/
theorem scheduler_delay_jitter_bound (st : DbState) (eid : String)
    (k now sample : Int) (e : Execution) (stp : Step)
    (he : find_execution st.executions eid = some e)
    (hrun : e.status = "RUNNING")
    (hstep : (steps_of st.steps e.flow_id).find? (fun s => s.order = k) = some stp)
    (hd : 0 ≤ stp.delay_ms) (hp0 : 0 ≤ stp.jitter_pct) (hp1 : stp.jitter_pct ≤ 100)
    (hs : -(jitter_variance stp.delay_ms stp.jitter_pct) ≤ sample ∧
          sample ≤ jitter_variance stp.delay_ms stp.jitter_pct) :
    ∃ j, -(jitter_variance stp.delay_ms stp.jitter_pct) ≤ j ∧
      j ≤ jitter_variance stp.delay_ms stp.jitter_pct ∧
      (schedule_step st eid k now sample).2 =
        ScheduleResult.scheduled stp (max 0 (stp.delay_ms + j)) ∧
      (jitter_variance stp.delay_ms stp.jitter_pct = 0 → j = 0) := by
  have hvnn : 0 ≤ jitter_variance stp.delay_ms stp.jitter_pct :=
    Int.tdiv_nonneg (mul_nonneg hd hp0) (by norm_num)
  refine ⟨jitter_of stp.delay_ms stp.jitter_pct sample, ?_, ?_, ?_, ?_⟩
  · unfold jitter_of
    split
    · exact hs.1
    · omega
  · unfold jitter_of
    split
    · exact hs.2
    · omega
  · simp [schedule_step, he, hrun, hstep, final_delay]
  · intro h0
    simp [jitter_of, h0]

/-- **C6.** Scheduling a RUNNING execution at an `order` value that no step
of the flow carries transitions the execution to COMPLETED with
`completedAt` set, and dispatches nothing. -/
theorem missing_step_completes_execution (st : DbState) (eid : String)
    (k now sample : Int) (e : Execution)
    (he : find_execution st.executions eid = some e)
    (hrun : e.status = "RUNNING")
    (hnone : (steps_of st.steps e.flow_id).find? (fun s => s.order = k) = none) :
    (schedule_step st eid k now sample).2 = ScheduleResult.flowFinished ∧
    ∀ e' ∈ (schedule_step st eid k now sample).1.executions, e'.id = eid →
      e'.status = "COMPLETED" ∧ e'.completed_at = some now := by
  constructor
  · simp [schedule_step, he, hrun, hnone]
  · intro e' hmem hid
    have hst : (schedule_step st eid k now sample).1.executions =
        update_execution st.executions eid (fun e =>
          { e with status := "COMPLETED", completed_at := some now, updated_at := now }) := by
      simp [schedule_step, he, hrun, hnone]
    rw [hst] at hmem
    rcases mem_update_execution hmem with ⟨a, _, _, rfl⟩ | ⟨_, hnid⟩
    · exact ⟨rfl, rfl⟩
    · exact absurd hid hnid

/-- **C8.** Scheduling an execution whose status is not RUNNING (COMPLETED or
FAILED in particular) drops the hop: the database is untouched and no
deferred task is spawned. -/
theorem terminal_execution_not_redispatched (st : DbState) (eid : String)
    (k now sample : Int) (e : Execution)
    (he : find_execution st.executions eid = some e)
    (hnot : e.status ≠ "RUNNING") :
    schedule_step st eid k now sample = (st, ScheduleResult.notRunning) := by
  simp [schedule_step, he, hnot]

/-! Scheduler fixtures. -/

/-- A RUNNING execution of flow `f1` at `currentStep = 0`. -/
def execution_running : Execution :=
  { id := "e1", session_id := "s", flow_id := "f1", platform_user_id := "u",
    status := "RUNNING", current_step := 0, variable_context := some "{}",
    started_at := 0, updated_at := 0, completed_at := none, error := none,
    trigger := some "Hello" }

/-- A TEXT step at order 0 of flow `f1`, no delay. -/
def step0 : Step :=
  { id := "s0", flow_id := "f1", type := StepType.TEXT, content := some "hi",
    media_url := none, metadata := none, delay_ms := 0, jitter_pct := 0,
    order := 0, created_at := 0, updated_at := 0 }

/-- A TEXT step at order 1 of flow `f1` with a 1000 ms delay and no jitter. -/
def step1 : Step :=
  { step0 with id := "s1", order := 1, delay_ms := 1000 }

/-- Database with the RUNNING execution and steps 0 and 1 of flow `f1`. -/
def db_two_steps : DbState :=
  { triggers := [], executions := [execution_running], steps := [step0, step1],
    sessions := [], locks := [] }

/-- **C1, counterexample.** The claim says the scheduler advances
`currentStep` to `order + 1` after the processor returns and *before*
sleeping for the next step. Running step 0's deferred task to the point where
the task for step 1 starts its 1000 ms sleep, `currentStep` is still `0`
(the order of the step just executed), not `0 + 1`. -/
theorem current_step_lags_next_dispatch_cex :
    (execute_and_advance db_two_steps "e1" step0 (Except.ok ()) 5 0).2 =
      ScheduleResult.scheduled step1 1000 ∧
    ((execute_and_advance db_two_steps "e1" step0 (Except.ok ()) 5 0).1.executions.map
      (fun e => e.current_step)) = [0] ∧
    ¬ ((execute_and_advance db_two_steps "e1" step0 (Except.ok ()) 5 0).1.executions.map
      (fun e => e.current_step)) = [step0.order + 1] := by
  decide

/-- **C1, amended.** The deferred task for step `order` first writes
`currentStep := order` (before invoking the processor); after the processor
returns it schedules step `order + 1` without touching `currentStep`, so at
the moment the next sleep starts `currentStep` still equals `order`, and the
step dispatched next carries `order + 1`. -/
theorem execute_and_advance_current_step (st : DbState) (eid : String)
    (step : Step) (pr : Except String Unit) (now sample : Int) :
    (∀ e' ∈ (execute_and_advance st eid step pr now sample).1.executions,
      e'.id = eid → e'.current_step = step.order) ∧
    (∀ s d, (execute_and_advance st eid step pr now sample).2 =
        ScheduleResult.scheduled s d → s.order = step.order + 1) := by
  constructor
  · simp only [execute_and_advance]
    rcases pr with msg | _
    · refine schedule_step_preserves_current_step _ eid _ now sample step.order ?_
      refine update_execution_keeps _ _ _ _ ?_ ?_
      · intro a; rfl
      · refine update_execution_sets _ _ _ _ ?_
        intro a; rfl
    · refine schedule_step_preserves_current_step _ eid _ now sample step.order ?_
      refine update_execution_sets _ _ _ _ ?_
      intro a; rfl
  · intro s d h
    simp only [execute_and_advance] at h
    exact schedule_step_scheduled_order _ _ _ _ _ _ _ h

/-- Witness for the amended C1 at the counterexample input: the updated row
carries `currentStep = step0.order`, and the next dispatched step is at
`order 1 = step0.order + 1`. -/
theorem execute_and_advance_current_step_witness :
    ({ execution_running with current_step := 0, updated_at := 5 } : Execution).current_step
      = step0.order ∧
    step1.order = step0.order + 1 :=
  ⟨(execute_and_advance_current_step db_two_steps "e1" step0 (Except.ok ()) 5 0).1
      _ (by decide) (by decide),
   (execute_and_advance_current_step db_two_steps "e1" step0 (Except.ok ()) 5 0).2
      step1 1000 (by decide)⟩

/-- A step at order 0 with a 1000 ms delay and 50% jitter. -/
def step_jitter : Step :=
  { step0 with id := "sj", delay_ms := 1000, jitter_pct := 50 }

/-- Database with the RUNNING execution and only the jittered step. -/
def db_jitter : DbState :=
  { triggers := [], executions := [execution_running], steps := [step_jitter],
    sessions := [], locks := [] }

/-- Witness for C3 with `delayMs = 1000`, `jitterPct = 50` (variance 500) and
RNG sample 250. -/
theorem scheduler_delay_jitter_bound_witness :
    ∃ j, -(jitter_variance step_jitter.delay_ms step_jitter.jitter_pct) ≤ j ∧
      j ≤ jitter_variance step_jitter.delay_ms step_jitter.jitter_pct ∧
      (schedule_step db_jitter "e1" 0 99 250).2 =
        ScheduleResult.scheduled step_jitter (max 0 (step_jitter.delay_ms + j)) ∧
      (jitter_variance step_jitter.delay_ms step_jitter.jitter_pct = 0 → j = 0) :=
  scheduler_delay_jitter_bound db_jitter "e1" 0 99 250 execution_running step_jitter
    (by decide) (by decide) (by decide) (by decide) (by decide) (by decide)
    ⟨by decide, by decide⟩

/-- The row C6's completion transition produces at `now = 77`. -/
def execution_completed_77 : Execution :=
  { execution_running with status := "COMPLETED", completed_at := some 77, updated_at := 77 }

/-- Witness for C6: scheduling order 2, which no step of flow `f1` carries,
completes the execution and dispatches nothing. -/
theorem missing_step_completes_execution_witness :
    (schedule_step db_two_steps "e1" 2 77 0).2 = ScheduleResult.flowFinished ∧
    (execution_completed_77.status = "COMPLETED" ∧
      execution_completed_77.completed_at = some 77) :=
  ⟨(missing_step_completes_execution db_two_steps "e1" 2 77 0 execution_running
      (by decide) (by decide) (by decide)).1,
   (missing_step_completes_execution db_two_steps "e1" 2 77 0 execution_running
      (by decide) (by decide) (by decide)).2 _ (by decide) (by decide)⟩

/-- A COMPLETED (terminal) execution. -/
def execution_done : Execution :=
  { execution_running with id := "e2", status := "COMPLETED", completed_at := some 3 }

/-- Database holding only the terminal execution. -/
def db_done : DbState :=
  { triggers := [], executions := [execution_done], steps := [step0, step1],
    sessions := [], locks := [] }

/-- Witness for C8: scheduling the COMPLETED execution changes nothing and
dispatches nothing. -/
theorem terminal_execution_not_redispatched_witness :
    schedule_step db_done "e2" 0 42 0 = (db_done, ScheduleResult.notRunning) :=
  terminal_execution_not_redispatched db_done "e2" 0 42 0 execution_done
    (by decide) (by decide)

/-! ### Theorems: admission -/

/-- **C4.** With the lock acquired, a flow cooldown `> 0`, and the most
recent prior execution of `(session, flow)` started less than `cooldownMs`
ago, admission appends exactly one FAILED execution whose `error` is the
cooldown reason (carrying elapsed and cooldown), releases the lock key, and
creates no RUNNING execution (the appended row is the only change). -/
theorem cooldown_rejection_writes_failed (st : DbState)
    (bot_id session_id sender content : String) (from_me redis_ok : Bool)
    (now : Int) (new_id : String) (trigger : Trigger) (t : Int)
    (hcontent : (rust_trim content).data.isEmpty = false)
    (hmatch : find_match content (active_triggers st.triggers bot_id session_id from_me) =
      some trigger)
    (hlock : set_nx st.locks ("flow:lock:" ++ session_id ++ ":" ++ trigger.flow_id)
      redis_ok = true)
    (hc : 0 < trigger.cooldown_ms.getD 0)
    (hlast : last_started_at st.executions session_id trigger.flow_id = some t)
    (hel : now - t < trigger.cooldown_ms.getD 0) :
    process_incoming_message st bot_id session_id from_me sender content redis_ok now new_id =
      ({ st with executions := st.executions ++
          [failed_execution new_id session_id trigger.flow_id sender trigger.keyword
            ("Cooldown active (" ++ toString (now - t) ++ "/" ++
              toString (trigger.cooldown_ms.getD 0) ++ "ms)") now] },
        AdmissionOutcome.rejected
          ("Cooldown active (" ++ toString (now - t) ++ "/" ++
            toString (trigger.cooldown_ms.getD 0) ++ "ms)")) ∧
    ("flow:lock:" ++ session_id ++ ":" ++ trigger.flow_id) ∉
      (process_incoming_message st bot_id session_id from_me sender content redis_ok
        now new_id).1.locks := by
  have hmain : process_incoming_message st bot_id session_id from_me sender content
      redis_ok now new_id =
      ({ st with executions := st.executions ++
          [failed_execution new_id session_id trigger.flow_id sender trigger.keyword
            ("Cooldown active (" ++ toString (now - t) ++ "/" ++
              toString (trigger.cooldown_ms.getD 0) ++ "ms)") now] },
        AdmissionOutcome.rejected
          ("Cooldown active (" ++ toString (now - t) ++ "/" ++
            toString (trigger.cooldown_ms.getD 0) ++ "ms)")) := by
    simp only [process_incoming_message, hcontent, Bool.false_eq_true, if_false, hmatch,
      hlock, if_true, hc, hlast, hel, List.erase_cons_head]
  refine ⟨hmain, ?_⟩
  rw [hmain]
  simp only [set_nx, Bool.and_eq_true, Bool.not_eq_true] at hlock
  simpa using hlock.2

/-- The row-accounting contract of one admission attempt relative to the
starting database `st`: rejections append exactly one FAILED row carrying the
reason, lock denial changes nothing, success appends exactly one RUNNING
row. -/
def admission_ok (st : DbState) (r : DbState × AdmissionOutcome) : Prop :=
  (∀ msg, r.2 = AdmissionOutcome.rejected msg →
    ∃ row, r.1.executions = st.executions ++ [row] ∧
      row.status = "FAILED" ∧ row.error = some msg) ∧
  (r.2 = AdmissionOutcome.lockDenied → r.1 = st) ∧
  (∀ xid, r.2 = AdmissionOutcome.admitted xid →
    ∃ row, r.1.executions = st.executions ++ [row] ∧ row.status = "RUNNING")

/-- **C5.** Row accounting of one admission attempt: a rejection (cooldown,
usage limit, or exclusion) appends exactly one FAILED row carrying the
rejection reason; a lock denial leaves the database exactly as it was
(no row of any status); a successful admission appends exactly one RUNNING
row. -/
theorem admission_row_accounting (st : DbState) (bot_id session_id : String)
    (from_me : Bool) (sender content : String) (redis_ok : Bool) (now : Int)
    (new_id : String) :
    (∀ msg, (process_incoming_message st bot_id session_id from_me sender content
        redis_ok now new_id).2 = AdmissionOutcome.rejected msg →
      ∃ row, (process_incoming_message st bot_id session_id from_me sender content
          redis_ok now new_id).1.executions = st.executions ++ [row] ∧
        row.status = "FAILED" ∧ row.error = some msg) ∧
    ((process_incoming_message st bot_id session_id from_me sender content
        redis_ok now new_id).2 = AdmissionOutcome.lockDenied →
      (process_incoming_message st bot_id session_id from_me sender content
        redis_ok now new_id).1 = st) ∧
    (∀ xid, (process_incoming_message st bot_id session_id from_me sender content
        redis_ok now new_id).2 = AdmissionOutcome.admitted xid →
      ∃ row, (process_incoming_message st bot_id session_id from_me sender content
          redis_ok now new_id).1.executions = st.executions ++ [row] ∧
        row.status = "RUNNING") := by
  suffices h : admission_ok st (process_incoming_message st bot_id session_id from_me
      sender content redis_ok now new_id) by
    exact h
  simp only [process_incoming_message]
  repeat' split
  all_goals simp only [admission_ok]
  all_goals refine ⟨fun msg hmsg => ?_, fun hld => ?_, fun xid hx => ?_⟩
  all_goals first
    | trivial
    | (cases hld <;> rfl)
    | (cases hmsg <;> exact ⟨_, rfl, rfl, rfl⟩)
    | (cases hx <;> exact ⟨_, rfl, rfl⟩)

/-- **C9.** If the Redis SET command that acquires the lock fails at the
service level (an error, not a denial), `process_incoming_message` behaves
exactly like a lock denial: it returns with no execution row of any status
and no FAILED audit record — the database is untouched. -/
theorem lock_error_behaves_as_denial (st : DbState) (bot_id session_id : String)
    (from_me : Bool) (sender content : String) (now : Int) (new_id : String)
    (trigger : Trigger)
    (hcontent : (rust_trim content).data.isEmpty = false)
    (hmatch : find_match content (active_triggers st.triggers bot_id session_id from_me) =
      some trigger) :
    process_incoming_message st bot_id session_id from_me sender content false now new_id =
      (st, AdmissionOutcome.lockDenied) := by
  simp only [process_incoming_message, hcontent, Bool.false_eq_true, if_false, hmatch,
    set_nx, Bool.false_and]

/-! Admission fixtures. -/

/-- A prior COMPLETED execution of `(s, f1)` started at time 0. -/
def execution_prior : Execution :=
  { id := "e0", session_id := "s", flow_id := "f1", platform_user_id := "u",
    status := "COMPLETED", current_step := 0, variable_context := some "{}",
    started_at := 0, updated_at := 0, completed_at := some 0, error := none,
    trigger := some "Hello" }

/-- Database with the EXACT trigger (60 s cooldown) and the prior execution. -/
def db_admission : DbState :=
  { triggers := [trigger_exact], executions := [execution_prior], steps := [],
    sessions := [], locks := [] }

/-- The same database with the `(s, f1)` lock already held. -/
def db_locked : DbState :=
  { db_admission with locks := ["flow:lock:s:f1"] }

/-- Witness for C4: prior execution 10 s ago against a 60 s cooldown — one
FAILED row with the cooldown reason, lock released. -/
theorem cooldown_rejection_writes_failed_witness :
    process_incoming_message db_admission "b" "s" false "u2" "hello" true 10000 "new" =
      ({ db_admission with executions := db_admission.executions ++
          [failed_execution "new" "s" trigger_exact.flow_id "u2" trigger_exact.keyword
            ("Cooldown active (" ++ toString ((10000 : Int) - 0) ++ "/" ++
              toString (trigger_exact.cooldown_ms.getD 0) ++ "ms)") 10000] },
        AdmissionOutcome.rejected
          ("Cooldown active (" ++ toString ((10000 : Int) - 0) ++ "/" ++
            toString (trigger_exact.cooldown_ms.getD 0) ++ "ms)")) ∧
    ("flow:lock:" ++ "s" ++ ":" ++ trigger_exact.flow_id) ∉
      (process_incoming_message db_admission "b" "s" false "u2" "hello" true
        10000 "new").1.locks :=
  cooldown_rejection_writes_failed db_admission "b" "s" "u2" "hello" false true
    10000 "new" trigger_exact 0 (by decide) (by decide) (by decide) (by decide)
    (by decide) (by decide)

/-- Witness for C5, exercising all three accounting cases: the cooldown
rejection appends one FAILED row, the held lock leaves the database
untouched, and a post-cooldown admission appends one RUNNING row. -/
theorem admission_row_accounting_witness :
    (∃ row, (process_incoming_message db_admission "b" "s" false "u2" "hello" true
        10000 "new").1.executions = db_admission.executions ++ [row] ∧
      row.status = "FAILED" ∧ row.error = some "Cooldown active (10000/60000ms)") ∧
    ((process_incoming_message db_locked "b" "s" false "u2" "hello" true
        10000 "new").1 = db_locked) ∧
    (∃ row, (process_incoming_message db_admission "b" "s" false "u2" "hello" true
        70000 "new").1.executions = db_admission.executions ++ [row] ∧
      row.status = "RUNNING") :=
  ⟨(admission_row_accounting db_admission "b" "s" false "u2" "hello" true 10000
      "new").1 "Cooldown active (10000/60000ms)" (by decide),
   (admission_row_accounting db_locked "b" "s" false "u2" "hello" true 10000
      "new").2.1 (by decide),
   (admission_row_accounting db_admission "b" "s" false "u2" "hello" true 70000
      "new").2.2 "new" (by decide)⟩

/-- Witness for C9: with the Redis command failing, the same matching input
drops silently with an unchanged database. -/
theorem lock_error_behaves_as_denial_witness :
    process_incoming_message db_admission "b" "s" false "u2" "hello" false
      10000 "new" = (db_admission, AdmissionOutcome.lockDenied) :=
  lock_error_behaves_as_denial db_admission "b" "s" false "u2" "hello" 10000 "new"
    trigger_exact (by decide) (by decide)

/-! ### Theorems: processor error surface -/

/-- **C10.** `execute_step` returns `Ok` — so the scheduler records no
`execution.error` — whenever the step, execution, or session row is missing,
whenever the session's platform is not WHATSAPP, whenever a media step lacks
`mediaUrl` or the step type is unsupported (empty payload, nothing emitted),
and whenever the XADD itself fails; it returns `Err` only when one of the
three database queries fails. -/
theorem execute_step_error_surface (q_step : Except String (Option Step))
    (q_execution : Except String (Option Execution))
    (q_session : Except String (Option Session))
    (execution_id : String) (step_order : Int) (current_minutes : Nat)
    (xadd_ok : Bool) :
    (q_step = Except.ok none →
      execute_step q_step q_execution q_session execution_id step_order
        current_minutes xadd_ok = Except.ok []) ∧
    (∀ s, q_step = Except.ok (some s) → q_execution = Except.ok none →
      execute_step q_step q_execution q_session execution_id step_order
        current_minutes xadd_ok = Except.ok []) ∧
    (∀ s ex, q_step = Except.ok (some s) → q_execution = Except.ok (some ex) →
      q_session = Except.ok none →
      execute_step q_step q_execution q_session execution_id step_order
        current_minutes xadd_ok = Except.ok []) ∧
    (∀ s ex sess, q_step = Except.ok (some s) → q_execution = Except.ok (some ex) →
      q_session = Except.ok (some sess) → sess.platform ≠ Platform.WHATSAPP →
      execute_step q_step q_execution q_session execution_id step_order
        current_minutes xadd_ok = Except.ok []) ∧
    (∀ s ex sess, q_step = Except.ok (some s) → q_execution = Except.ok (some ex) →
      q_session = Except.ok (some sess) →
      (s.type = StepType.IMAGE ∨ s.type = StepType.AUDIO ∨ s.type = StepType.PTT) →
      s.media_url = none →
      execute_step q_step q_execution q_session execution_id step_order
        current_minutes xadd_ok = Except.ok []) ∧
    (∀ s ex sess, q_step = Except.ok (some s) → q_execution = Except.ok (some ex) →
      q_session = Except.ok (some sess) →
      (s.type = StepType.VIDEO ∨ s.type = StepType.DOCUMENT) →
      execute_step q_step q_execution q_session execution_id step_order
        current_minutes xadd_ok = Except.ok []) ∧
    (∀ s ex sess, q_step = Except.ok (some s) → q_execution = Except.ok (some ex) →
      q_session = Except.ok (some sess) →
      ∃ l, execute_step q_step q_execution q_session execution_id step_order
        current_minutes xadd_ok = Except.ok l) ∧
    (∀ e, execute_step q_step q_execution q_session execution_id step_order
        current_minutes xadd_ok = Except.error e →
      (∃ e1, q_step = Except.error e1) ∨ (∃ e2, q_execution = Except.error e2) ∨
        (∃ e3, q_session = Except.error e3)) := by
  refine ⟨?_, ?_, ?_, ?_, ?_, ?_, ?_, ?_⟩
  · intro h
    simp [execute_step, h]
  · intro s h1 h2
    simp [execute_step, h1, h2]
  · intro s ex h1 h2 h3
    simp [execute_step, h1, h2, h3]
  · intro s ex sess h1 h2 h3 hp
    simp [execute_step, h1, h2, h3, hp]
  · intro s ex sess h1 h2 h3 hty hmedia
    rcases hty with h | h | h <;>
      by_cases hp : sess.platform = Platform.WHATSAPP <;>
        simp [execute_step, h1, h2, h3, build_whatsapp_payload, payload_nonempty,
          empty_payload, h, hmedia, hp]
  · intro s ex sess h1 h2 h3 hty
    rcases hty with h | h <;>
      by_cases hp : sess.platform = Platform.WHATSAPP <;>
        simp [execute_step, h1, h2, h3, build_whatsapp_payload, payload_nonempty,
          empty_payload, h, hp]
  · intro s ex sess h1 h2 h3
    simp only [execute_step, h1, h2, h3]
    repeat' split
    all_goals exact ⟨_, rfl⟩
  · intro e he
    rcases q_step with e1 | os
    · exact Or.inl ⟨e1, rfl⟩
    · rcases os with _ | s
      · simp [execute_step] at he
      · rcases q_execution with e2 | oe
        · exact Or.inr (Or.inl ⟨e2, rfl⟩)
        · rcases oe with _ | ex
          · simp [execute_step] at he
          · rcases q_session with e3 | osn
            · exact Or.inr (Or.inr ⟨e3, rfl⟩)
            · rcases osn with _ | sess
              · simp [execute_step] at he
              · exfalso
                by_cases hp : sess.platform = Platform.WHATSAPP
                · by_cases hne : payload_nonempty
                      (build_whatsapp_payload s current_minutes) = true
                  · by_cases hx2 : xadd_ok = true <;>
                      simp [execute_step, hp, hne, hx2] at he
                  · simp [execute_step, hp, hne] at he
                · simp [execute_step, hp] at he

/-! Processor fixtures. -/

/-- A CONNECTED WhatsApp session of bot `b`. -/
def session_wa : Session :=
  { id := "s", platform := Platform.WHATSAPP, identifier := "5215550000000",
    bot_id := "b", name := none, status := SessionStatus.CONNECTED,
    auth_data := none, created_at := 0, updated_at := 0 }

/-- An IMAGE step with no `mediaUrl`. -/
def step_image_nourl : Step :=
  { step0 with
    id := "si"
    type := StepType.IMAGE
    content := some "caption"
    media_url := none }

/-- Witness for C10: a missing step row yields `Ok` with no emission; an
IMAGE step without `mediaUrl` on a WhatsApp session yields `Ok` with no
emission; a failing step query is the only thing that yields `Err`. -/
theorem execute_step_error_surface_witness :
    execute_step (Except.ok none) (Except.ok none) (Except.ok none)
      "e1" 0 0 true = Except.ok [] ∧
    execute_step (Except.ok (some step_image_nourl))
      (Except.ok (some execution_running)) (Except.ok (some session_wa))
      "e1" 0 0 true = Except.ok [] ∧
    ((∃ e1, (Except.error "db down" : Except String (Option Step)) = Except.error e1) ∨
      (∃ e2, (Except.ok (some execution_running) :
        Except String (Option Execution)) = Except.error e2) ∨
      (∃ e3, (Except.ok (some session_wa) :
        Except String (Option Session)) = Except.error e3)) :=
  ⟨(execute_step_error_surface (Except.ok none) (Except.ok none) (Except.ok none)
      "e1" 0 0 true).1 rfl,
   (execute_step_error_surface (Except.ok (some step_image_nourl))
      (Except.ok (some execution_running)) (Except.ok (some session_wa))
      "e1" 0 0 true).2.2.2.2.1 step_image_nourl execution_running session_wa
      rfl rfl rfl (Or.inl rfl) rfl,
   (execute_step_error_surface (Except.error "db down")
      (Except.ok (some execution_running)) (Except.ok (some session_wa))
      "e1" 0 0 true).2.2.2.2.2.2.2 "Failed to query Step: db down" rfl⟩

end Agentic
